import Mathlib

/-!
# settle-ethereum-pyusd-to-base-usdc

A shallow embedding of `go/settle-ethereum-pyusd-to-base-usdc/main.go`.

The script is sequential glue around an external SDK.  The SDK (signer, client,
`common.HexToAddress`, `godotenv.Load`) is not part of the repository, so it is a
parameter of the embedding: a record `SDK` of arbitrary types and arbitrary
state-passing functions over an arbitrary `World`.  Every theorem quantifies over
all such records, that is over every behaviour of the collaborators.

Go `error` values are the inductive `GoError`; a Go result pair `(v, err)` is an
`Except GoError`, a lone `error` result is an `Option GoError` (`none` is `nil`).
The run state `Run` carries the collaborators' world, the list of collaborator
calls made so far (with arguments and results), the lines sent to the `log`
stream and the text written to standard output.
-/

namespace Settle

/-! ## Go errors -/

/-- Go error values: `errorString` is what `fmt.Errorf` without `%w` (or `errors.New`)
builds, `wrapError` is `fmt.wrapError`, built by `fmt.Errorf` with one `%w`.  Errors
coming out of the SDK are arbitrary values of this type. -/
inductive GoError where
  | errorString (msg : String)
  | wrapError (msg : String) (err : GoError)
deriving DecidableEq, Repr

/-- The method `Error()`. -/
def GoError.Error : GoError → String
  | .errorString msg => msg
  | .wrapError msg _ => msg

/-- The method `Unwrap()`, `none` when the error wraps nothing. -/
def GoError.Unwrap : GoError → Option GoError
  | .errorString _ => none
  | .wrapError _ err => some err

/-- The chain walked by `errors.Is` / `errors.As`: the error, what it wraps, and so on. -/
def GoError.chain : GoError → List GoError
  | .errorString msg => [.errorString msg]
  | .wrapError msg err => .wrapError msg err :: err.chain

/-- `fmt.Errorf(msg)` for a format string without verbs. -/
def Errorf (msg : String) : GoError := .errorString msg

/-- `fmt.Errorf(label + "%w", err)`: the message is the label followed by `err.Error()`,
and the result unwraps to `err`. -/
def ErrorfW (label : String) (err : GoError) : GoError :=
  .wrapError (label ++ err.Error) err

/-! ## Constants of `main.go` -/

/-- Ethereum mainnet. -/
def ethereumMainnetChainID : Nat := 1

/-- Base. -/
def baseChainID : Nat := 8453

/-- pyUSD on Ethereum mainnet. -/
def pyUSDAddress : String := "0x6c3ea9036406852006290770BEdFcAbA0e23A0e8"

/-- USDC on Base. -/
def usdcAddress : String := "0x833589fCD6eDb6E08f4c7C32D4f71b54bdA02913"

/-! ## `math/big`: `(*Int).SetString` in base 10 -/

/-- Value of a decimal digit. -/
def digitVal (c : Char) : Option Nat :=
  if '0' ≤ c ∧ c ≤ '9' then some (c.toNat - '0'.toNat) else none

/-- Scan a run of decimal digits, most significant first. -/
def scanDigits : List Char → Nat → Option Nat
  | [], acc => some acc
  | c :: cs, acc =>
    match digitVal c with
    | some d => scanDigits cs (acc * 10 + d)
    | none => none

/-- `SetString(s, 10)`: an optional sign followed by one or more decimal digits, the
whole string; `none` is the `ok = false` result. -/
def SetString10 (s : String) : Option Int :=
  match s.data with
  | [] => none
  | '-' :: ds => if ds = [] then none else (scanDigits ds 0).map fun n => -(n : Int)
  | '+' :: ds => if ds = [] then none else (scanDigits ds 0).map fun n => (n : Int)
  | ds => (scanDigits ds 0).map fun n => (n : Int)

/-- Lines 75-76: `new(big.Int)` is zero, then `SetString("1000000", 10)` whose results
are discarded. -/
def settlementAmount : Int := (SetString10 "1000000").getD 0

/-! ## The SDK -/

/-- The struct literal `client.BuildSettlementOrchestrationRequest` of lines 80-93.
The Go map `AcceptedTokens` is the list of its entries, in the order of the literal. -/
structure BuildSettlementOrchestrationRequest (Address : Type) where
  AcceptedTokens : List (Nat × List Address)
  SettlementChain : Nat
  SettlementToken : Address
  SettlementAmount : Int
  RecipientAddress : Address

/-- The external collaborators.  `World` is whatever state they share (remote service,
network, key store); each operation reads and updates it. -/
structure SDK where
  World : Type
  Address : Type
  EthSigner : Type
  Client : Type
  BuildResponse : Type
  Instruction : Type
  OrchestrationRequest : Type
  /-- The function `common.HexToAddress`. -/
  HexToAddress : String → Address
  /-- The method `common.Address.Hex`. -/
  Hex : Address → String
  /-- The field `buildResponse.RequestID`. -/
  RequestID : BuildResponse → String
  /-- The field `buildResponse.EphemeralWalletAddress`. -/
  EphemeralWalletAddress : BuildResponse → Address
  /-- The field `newRequest.Instructions`. -/
  Instructions : OrchestrationRequest → List Instruction
  /-- The field `newRequest.CompletionInstructions`. -/
  CompletionInstructions : OrchestrationRequest → List Instruction
  /-- The function `godotenv.Load`: may extend the process environment. -/
  godotenvLoad : (String → String) → World → Option GoError × (String → String) × World
  /-- The function `signer.NewEthSigner`. -/
  NewEthSigner : String → World → Except GoError EthSigner × World
  /-- The function `client.NewClient`. -/
  NewClient : EthSigner → String → String → World → Except GoError Client × World
  /-- The method `BuildSettlementOrchestration` (build). -/
  BuildSettlementOrchestration :
    Client → BuildSettlementOrchestrationRequest Address → World →
      Except GoError BuildResponse × World
  /-- The method `NewOrchestrationFromBuild` (sign). -/
  NewOrchestrationFromBuild :
    Client → BuildResponse → World → Except GoError OrchestrationRequest × World
  /-- The method `NewOrchestration` (submit). -/
  NewOrchestration : Client → OrchestrationRequest → World → Option GoError × World

/-- The five collaborator stages of `createSettlement`. -/
inductive Stage where
  | signer
  | client
  | build
  | sign
  | submit
deriving DecidableEq, Repr, Fintype

/-- One collaborator call: its arguments and what it returned. -/
inductive Call (S : SDK) where
  | NewEthSigner (privateKey : String) (res : Except GoError S.EthSigner)
  | NewClient (ethSigner : S.EthSigner) (apiURL apiKey : String) (res : Except GoError S.Client)
  | BuildSettlementOrchestration (otimClient : S.Client)
      (req : BuildSettlementOrchestrationRequest S.Address) (res : Except GoError S.BuildResponse)
  | NewOrchestrationFromBuild (otimClient : S.Client) (resp : S.BuildResponse)
      (res : Except GoError S.OrchestrationRequest)
  | NewOrchestration (otimClient : S.Client) (req : S.OrchestrationRequest)
      (res : Option GoError)

/-- The stage a call belongs to. -/
def Call.stage {S : SDK} : Call S → Stage
  | .NewEthSigner _ _ => .signer
  | .NewClient _ _ _ _ => .client
  | .BuildSettlementOrchestration _ _ _ => .build
  | .NewOrchestrationFromBuild _ _ _ => .sign
  | .NewOrchestration _ _ _ => .submit

/-- The error a call returned, `none` when it succeeded. -/
def Call.err {S : SDK} : Call S → Option GoError
  | .NewEthSigner _ (.error e) => some e
  | .NewEthSigner _ (.ok _) => none
  | .NewClient _ _ _ (.error e) => some e
  | .NewClient _ _ _ (.ok _) => none
  | .BuildSettlementOrchestration _ _ (.error e) => some e
  | .BuildSettlementOrchestration _ _ (.ok _) => none
  | .NewOrchestrationFromBuild _ _ (.error e) => some e
  | .NewOrchestrationFromBuild _ _ (.ok _) => none
  | .NewOrchestration _ _ res => res

/-- The state of one run. -/
structure Run (S : SDK) where
  /-- State of the collaborators. -/
  world : S.World
  /-- Collaborator calls made so far, oldest first. -/
  calls : List (Call S)
  /-- Messages sent to the `log` stream, oldest first. -/
  logged : List String
  /-- Text written to standard output. -/
  stdout : String

/-- A run that has done nothing yet. -/
def Run.start {S : SDK} (w : S.World) : Run S :=
  { world := w, calls := [], logged := [], stdout := "" }

/-- `log.Println(msg)` / `log.Printf` with the message already formatted. -/
def Run.log {S : SDK} (r : Run S) (msg : String) : Run S :=
  { r with logged := r.logged ++ [msg] }

/-- `fmt.Println(s)`: the string and a newline, on standard output. -/
def Run.Println {S : SDK} (r : Run S) (s : String) : Run S :=
  { r with stdout := r.stdout ++ s ++ "\n" }

/-- Perform a collaborator operation on the world and record the call. -/
def Run.perform {S : SDK} {α : Type} (r : Run S) (op : S.World → α × S.World)
    (mk : α → Call S) : α × Run S :=
  let out := op r.world
  (out.1, { r with world := out.2, calls := r.calls ++ [mk out.1] })

/-! ## `createSettlement` -/

/-- The function `createSettlement` of `main.go`; `getenv` is `os.Getenv`, which gives
the empty string for an unset variable. -/
def createSettlement (S : SDK) (getenv : String → String) (r : Run S) :
    Option GoError × Run S :=
  let apiURL := getenv "OTIM_API_URL"
  let apiKey := getenv "OTIM_API_KEY"
  let privateKey := getenv "OTIM_PRIVATE_KEY"
  let recipientAddress := getenv "RECIPIENT_ADDRESS"
  if apiURL = "" then
    (some (Errorf "OTIM_API_URL environment variable is required"), r)
  else if apiKey = "" then
    (some (Errorf "OTIM_API_KEY environment variable is required"), r)
  else if privateKey = "" then
    (some (Errorf "OTIM_PRIVATE_KEY environment variable is required"), r)
  else if recipientAddress = "" then
    (some (Errorf "RECIPIENT_ADDRESS environment variable is required"), r)
  else
  let r := r.log "Initializing EthSigner..."
  match r.perform (S.NewEthSigner privateKey) (Call.NewEthSigner privateKey) with
  | (.error err, r) => (some (ErrorfW "failed to create EthSigner: " err), r)
  | (.ok ethSigner, r) =>
  let r := r.log "Creating Otim client..."
  match r.perform (S.NewClient ethSigner apiURL apiKey)
      (Call.NewClient ethSigner apiURL apiKey) with
  | (.error err, r) => (some (ErrorfW "failed to create client: " err), r)
  | (.ok otimClient, r) =>
  let r := r.log "Building settlement orchestration request..."
  let buildRequest : BuildSettlementOrchestrationRequest S.Address :=
    { AcceptedTokens :=
        [ (ethereumMainnetChainID, [S.HexToAddress pyUSDAddress]),
          (baseChainID, [S.HexToAddress usdcAddress]) ]
      SettlementChain := baseChainID
      SettlementToken := S.HexToAddress usdcAddress
      SettlementAmount := settlementAmount
      RecipientAddress := S.HexToAddress recipientAddress }
  let r := r.log "Calling BuildSettlementOrchestration API..."
  match r.perform (S.BuildSettlementOrchestration otimClient buildRequest)
      (Call.BuildSettlementOrchestration otimClient buildRequest) with
  | (.error err, r) => (some (ErrorfW "BuildSettlementOrchestration failed: " err), r)
  | (.ok buildResponse, r) =>
  let r := r.log ("Build Response - RequestID: " ++ S.RequestID buildResponse)
  let r := r.log ("Build Response - Ephemeral Wallet: " ++
    S.Hex (S.EphemeralWalletAddress buildResponse))
  let r := r.log "Signing orchestration with Turnkey..."
  match r.perform (S.NewOrchestrationFromBuild otimClient buildResponse)
      (Call.NewOrchestrationFromBuild otimClient buildResponse) with
  | (.error err, r) => (some (ErrorfW "NewOrchestrationFromBuild failed: " err), r)
  | (.ok newRequest, r) =>
  let r := r.log ("Signed " ++
    toString ((S.Instructions newRequest).length + (S.CompletionInstructions newRequest).length)
    ++ " instructions successfully")
  let r := r.log "Submitting signed orchestration..."
  match r.perform (S.NewOrchestration otimClient newRequest)
      (Call.NewOrchestration otimClient newRequest) with
  | (some err, r) => (some (ErrorfW "NewOrchestration failed: " err), r)
  | (none, r) =>
  let r := r.log "✓ Settlement orchestration created successfully!"
  let r := r.log ("✓ RequestID: " ++ S.RequestID buildResponse)
  let r := r.log ("✓ Ephemeral Wallet: " ++ S.Hex (S.EphemeralWalletAddress buildResponse))
  let r := r.Println ("\n" ++ S.RequestID buildResponse)
  (none, r)

/-- The function `main`: load `.env`, run `createSettlement`, and on an error
`log.Fatalf`, which logs and exits with status 1.  The result is the exit status. -/
def main (S : SDK) (environ : String → String) (w : S.World) : Nat × Run S :=
  let r : Run S := Run.start w
  let loaded := S.godotenvLoad environ r.world
  let r := { r with world := loaded.2.2 }
  let r := match loaded.1 with
    | some _ => r.log "Warning: .env file not found, using environment variables"
    | none => r
  match createSettlement S loaded.2.1 r with
  | (some err, r) => (1, r.log ("Failed to create settlement: " ++ err.Error))
  | (none, r) => (0, r)

/-! ## Vocabulary for the properties -/

/-- The four variables read at lines 42-45, in the order they are checked. -/
def requiredVars : List String :=
  ["OTIM_API_URL", "OTIM_API_KEY", "OTIM_PRIVATE_KEY", "RECIPIENT_ADDRESS"]

/-- Every required variable has a non-empty value. -/
def Complete (getenv : String → String) : Prop :=
  getenv "OTIM_API_URL" ≠ "" ∧ getenv "OTIM_API_KEY" ≠ "" ∧
    getenv "OTIM_PRIVATE_KEY" ≠ "" ∧ getenv "RECIPIENT_ADDRESS" ≠ ""

instance (getenv : String → String) : Decidable (Complete getenv) := by
  unfold Complete; infer_instance

/-- The build request of lines 80-93 for a given `RECIPIENT_ADDRESS` value. -/
def buildRequestFor (S : SDK) (recipientAddress : String) :
    BuildSettlementOrchestrationRequest S.Address :=
  { AcceptedTokens :=
      [ (ethereumMainnetChainID, [S.HexToAddress pyUSDAddress]),
        (baseChainID, [S.HexToAddress usdcAddress]) ]
    SettlementChain := baseChainID
    SettlementToken := S.HexToAddress usdcAddress
    SettlementAmount := settlementAmount
    RecipientAddress := S.HexToAddress recipientAddress }

/-- Stage `s` was invoked: a call of that stage was made. -/
def invoked {S : SDK} (calls : List (Call S)) (s : Stage) : Prop :=
  ∃ c ∈ calls, c.stage = s

/-- Stage `s` succeeded: a call of that stage was made and returned no error. -/
def succeeded {S : SDK} (calls : List (Call S)) (s : Stage) : Prop :=
  ∃ c ∈ calls, c.stage = s ∧ c.err = none

/-- Stage `s` failed with the error `e`. -/
def failedWith {S : SDK} (calls : List (Call S)) (s : Stage) (e : GoError) : Prop :=
  ∃ c ∈ calls, c.stage = s ∧ c.err = some e

instance {S : SDK} (calls : List (Call S)) (s : Stage) : Decidable (invoked calls s) := by
  unfold invoked; infer_instance

instance {S : SDK} (calls : List (Call S)) (s : Stage) : Decidable (succeeded calls s) := by
  unfold succeeded; infer_instance

instance {S : SDK} (calls : List (Call S)) (s : Stage) (e : GoError) :
    Decidable (failedWith calls s e) := by
  unfold failedWith; infer_instance

/-- The requests passed to `BuildSettlementOrchestration`, oldest first. -/
def buildRequests {S : SDK} (calls : List (Call S)) :
    List (BuildSettlementOrchestrationRequest S.Address) :=
  calls.filterMap fun c =>
    match c with
    | .BuildSettlementOrchestration _ req _ => some req
    | _ => none

/-- The responses `BuildSettlementOrchestration` returned, oldest first. -/
def buildResponses {S : SDK} (calls : List (Call S)) : List S.BuildResponse :=
  calls.filterMap fun c =>
    match c with
    | .BuildSettlementOrchestration _ _ (.ok resp) => some resp
    | _ => none

/-- The text `name` occurs in the text `msg`. -/
def mentions (msg name : String) : Prop := name.data <:+: msg.data

instance (msg name : String) : Decidable (mentions msg name) := by
  unfold mentions; infer_instance

/-- The label `createSettlement` puts in front of an error of each stage. -/
def Stage.label : Stage → String
  | .signer => "failed to create EthSigner: "
  | .client => "failed to create client: "
  | .build => "BuildSettlementOrchestration failed: "
  | .sign => "NewOrchestrationFromBuild failed: "
  | .submit => "NewOrchestration failed: "

/-- The message `createSettlement` returns for a missing variable. -/
def missingMessage (v : String) : String := v ++ " environment variable is required"

/-- The last line of a text: the characters after the last newline, once the newline
that terminates the text (if any) is dropped. -/
def finalLine (out : String) : String :=
  let cs := out.data.reverse
  let cs := match cs with
    | '\n' :: rest => rest
    | _ => cs
  ⟨(cs.takeWhile fun c => c ≠ '\n').reverse⟩

/-! ## Test doubles -/

/-- A fake SDK: every stage succeeds except `failAt`, which fails with `boom`; the
service hands out the request identifier `rid`, whatever the state of the world, and the
world counts the calls served. -/
def fakeSDK (failAt : Option Stage) (rid : String) : SDK :=
  { World := Nat
    Address := String
    EthSigner := String
    Client := String
    BuildResponse := String × String
    Instruction := Unit
    OrchestrationRequest := String
    HexToAddress := fun s => s
    Hex := fun a => a
    RequestID := fun b => b.1
    EphemeralWalletAddress := fun b => b.2
    Instructions := fun _ => [()]
    CompletionInstructions := fun _ => [(), ()]
    godotenvLoad := fun environ w => (some (.errorString "open .env: no such file"), environ, w)
    NewEthSigner := fun key w =>
      (if failAt = some .signer then .error (.errorString "boom") else .ok key, w + 1)
    NewClient := fun _ url _ w =>
      (if failAt = some .client then .error (.errorString "boom") else .ok url, w + 1)
    BuildSettlementOrchestration := fun _ _ w =>
      (if failAt = some .build then .error (.errorString "boom") else .ok (rid, "0xwallet"),
        w + 1)
    NewOrchestrationFromBuild := fun _ b w =>
      (if failAt = some .sign then .error (.errorString "boom") else .ok b.1, w + 1)
    NewOrchestration := fun _ _ w =>
      (if failAt = some .submit then some (.errorString "boom") else none, w + 1) }

/-- A complete configuration. -/
def fullEnv : String → String := fun v =>
  if v = "OTIM_API_URL" then "https://api.example"
  else if v = "OTIM_API_KEY" then "key"
  else if v = "OTIM_PRIVATE_KEY" then "0xabc"
  else if v = "RECIPIENT_ADDRESS" then "not-an-address"
  else ""

/-- The configuration `fullEnv` with the variable `v` unset. -/
def envWithout (v : String) : String → String := fun u =>
  if u = v then "" else fullEnv u


/-! ## How a run can end -/

/-- The recorded calls are what the SDK really did: replayed in order from the world
`w`, each operation applied to the recorded arguments returns the recorded result, and
the last one leaves the world `w'`. -/
def Genuine (S : SDK) : S.World → List (Call S) → S.World → Prop
  | w, [], w' => w = w'
  | w, .NewEthSigner privateKey res :: cs, w' =>
    (S.NewEthSigner privateKey w).1 = res ∧ Genuine S (S.NewEthSigner privateKey w).2 cs w'
  | w, .NewClient ethSigner apiURL apiKey res :: cs, w' =>
    (S.NewClient ethSigner apiURL apiKey w).1 = res ∧
      Genuine S (S.NewClient ethSigner apiURL apiKey w).2 cs w'
  | w, .BuildSettlementOrchestration otimClient req res :: cs, w' =>
    (S.BuildSettlementOrchestration otimClient req w).1 = res ∧
      Genuine S (S.BuildSettlementOrchestration otimClient req w).2 cs w'
  | w, .NewOrchestrationFromBuild otimClient resp res :: cs, w' =>
    (S.NewOrchestrationFromBuild otimClient resp w).1 = res ∧
      Genuine S (S.NewOrchestrationFromBuild otimClient resp w).2 cs w'
  | w, .NewOrchestration otimClient req res :: cs, w' =>
    (S.NewOrchestration otimClient req w).1 = res ∧
      Genuine S (S.NewOrchestration otimClient req w).2 cs w'

/-- The ten ways a run of `createSettlement` can end, each with the value returned, the
calls recorded, the text on standard output and the world left behind, together with what
the SDK did to get there. -/
inductive Outcome (S : SDK) (getenv : String → String) (r : Run S) :
    Option GoError → List (Call S) → String → S.World → Prop
  | noURL (h : getenv "OTIM_API_URL" = "") :
      Outcome S getenv r (some (Errorf "OTIM_API_URL environment variable is required"))
        r.calls r.stdout r.world
  | noKey (h1 : getenv "OTIM_API_URL" ≠ "") (h : getenv "OTIM_API_KEY" = "") :
      Outcome S getenv r (some (Errorf "OTIM_API_KEY environment variable is required"))
        r.calls r.stdout r.world
  | noPrivateKey (h1 : getenv "OTIM_API_URL" ≠ "") (h2 : getenv "OTIM_API_KEY" ≠ "")
      (h : getenv "OTIM_PRIVATE_KEY" = "") :
      Outcome S getenv r (some (Errorf "OTIM_PRIVATE_KEY environment variable is required"))
        r.calls r.stdout r.world
  | noRecipient (h1 : getenv "OTIM_API_URL" ≠ "") (h2 : getenv "OTIM_API_KEY" ≠ "")
      (h3 : getenv "OTIM_PRIVATE_KEY" ≠ "") (h : getenv "RECIPIENT_ADDRESS" = "") :
      Outcome S getenv r (some (Errorf "RECIPIENT_ADDRESS environment variable is required"))
        r.calls r.stdout r.world
  | signerFailed (hc : Complete getenv) (e : GoError) (w1 : S.World)
      (hs : S.NewEthSigner (getenv "OTIM_PRIVATE_KEY") r.world = (.error e, w1)) :
      Outcome S getenv r (some (ErrorfW "failed to create EthSigner: " e))
        (r.calls ++ [.NewEthSigner (getenv "OTIM_PRIVATE_KEY") (.error e)]) r.stdout w1
  | clientFailed (hc : Complete getenv) (sg : S.EthSigner) (e : GoError) (w1 w2 : S.World)
      (hs : S.NewEthSigner (getenv "OTIM_PRIVATE_KEY") r.world = (.ok sg, w1))
      (hcl : S.NewClient sg (getenv "OTIM_API_URL") (getenv "OTIM_API_KEY") w1 =
        (.error e, w2)) :
      Outcome S getenv r (some (ErrorfW "failed to create client: " e))
        (r.calls ++ [.NewEthSigner (getenv "OTIM_PRIVATE_KEY") (.ok sg),
          .NewClient sg (getenv "OTIM_API_URL") (getenv "OTIM_API_KEY") (.error e)])
        r.stdout w2
  | buildFailed (hc : Complete getenv) (sg : S.EthSigner) (cl : S.Client) (e : GoError)
      (w1 w2 w3 : S.World)
      (hs : S.NewEthSigner (getenv "OTIM_PRIVATE_KEY") r.world = (.ok sg, w1))
      (hcl : S.NewClient sg (getenv "OTIM_API_URL") (getenv "OTIM_API_KEY") w1 = (.ok cl, w2))
      (hb : S.BuildSettlementOrchestration cl
        (buildRequestFor S (getenv "RECIPIENT_ADDRESS")) w2 = (.error e, w3)) :
      Outcome S getenv r (some (ErrorfW "BuildSettlementOrchestration failed: " e))
        (r.calls ++ [.NewEthSigner (getenv "OTIM_PRIVATE_KEY") (.ok sg),
          .NewClient sg (getenv "OTIM_API_URL") (getenv "OTIM_API_KEY") (.ok cl),
          .BuildSettlementOrchestration cl (buildRequestFor S (getenv "RECIPIENT_ADDRESS"))
            (.error e)]) r.stdout w3
  | signFailed (hc : Complete getenv) (sg : S.EthSigner) (cl : S.Client)
      (resp : S.BuildResponse) (e : GoError) (w1 w2 w3 w4 : S.World)
      (hs : S.NewEthSigner (getenv "OTIM_PRIVATE_KEY") r.world = (.ok sg, w1))
      (hcl : S.NewClient sg (getenv "OTIM_API_URL") (getenv "OTIM_API_KEY") w1 = (.ok cl, w2))
      (hb : S.BuildSettlementOrchestration cl
        (buildRequestFor S (getenv "RECIPIENT_ADDRESS")) w2 = (.ok resp, w3))
      (hsg : S.NewOrchestrationFromBuild cl resp w3 = (.error e, w4)) :
      Outcome S getenv r (some (ErrorfW "NewOrchestrationFromBuild failed: " e))
        (r.calls ++ [.NewEthSigner (getenv "OTIM_PRIVATE_KEY") (.ok sg),
          .NewClient sg (getenv "OTIM_API_URL") (getenv "OTIM_API_KEY") (.ok cl),
          .BuildSettlementOrchestration cl (buildRequestFor S (getenv "RECIPIENT_ADDRESS"))
            (.ok resp),
          .NewOrchestrationFromBuild cl resp (.error e)]) r.stdout w4
  | submitFailed (hc : Complete getenv) (sg : S.EthSigner) (cl : S.Client)
      (resp : S.BuildResponse) (req : S.OrchestrationRequest) (e : GoError)
      (w1 w2 w3 w4 w5 : S.World)
      (hs : S.NewEthSigner (getenv "OTIM_PRIVATE_KEY") r.world = (.ok sg, w1))
      (hcl : S.NewClient sg (getenv "OTIM_API_URL") (getenv "OTIM_API_KEY") w1 = (.ok cl, w2))
      (hb : S.BuildSettlementOrchestration cl
        (buildRequestFor S (getenv "RECIPIENT_ADDRESS")) w2 = (.ok resp, w3))
      (hsg : S.NewOrchestrationFromBuild cl resp w3 = (.ok req, w4))
      (hsub : S.NewOrchestration cl req w4 = (some e, w5)) :
      Outcome S getenv r (some (ErrorfW "NewOrchestration failed: " e))
        (r.calls ++ [.NewEthSigner (getenv "OTIM_PRIVATE_KEY") (.ok sg),
          .NewClient sg (getenv "OTIM_API_URL") (getenv "OTIM_API_KEY") (.ok cl),
          .BuildSettlementOrchestration cl (buildRequestFor S (getenv "RECIPIENT_ADDRESS"))
            (.ok resp),
          .NewOrchestrationFromBuild cl resp (.ok req),
          .NewOrchestration cl req (some e)]) r.stdout w5
  | done (hc : Complete getenv) (sg : S.EthSigner) (cl : S.Client)
      (resp : S.BuildResponse) (req : S.OrchestrationRequest) (w1 w2 w3 w4 w5 : S.World)
      (hs : S.NewEthSigner (getenv "OTIM_PRIVATE_KEY") r.world = (.ok sg, w1))
      (hcl : S.NewClient sg (getenv "OTIM_API_URL") (getenv "OTIM_API_KEY") w1 = (.ok cl, w2))
      (hb : S.BuildSettlementOrchestration cl
        (buildRequestFor S (getenv "RECIPIENT_ADDRESS")) w2 = (.ok resp, w3))
      (hsg : S.NewOrchestrationFromBuild cl resp w3 = (.ok req, w4))
      (hsub : S.NewOrchestration cl req w4 = (none, w5)) :
      Outcome S getenv r none
        (r.calls ++ [.NewEthSigner (getenv "OTIM_PRIVATE_KEY") (.ok sg),
          .NewClient sg (getenv "OTIM_API_URL") (getenv "OTIM_API_KEY") (.ok cl),
          .BuildSettlementOrchestration cl (buildRequestFor S (getenv "RECIPIENT_ADDRESS"))
            (.ok resp),
          .NewOrchestrationFromBuild cl resp (.ok req),
          .NewOrchestration cl req none])
        (r.stdout ++ ("\n" ++ S.RequestID resp) ++ "\n") w5

/-- Every run of `createSettlement` ends in one of the ten ways of `Outcome`. -/
theorem createSettlement_outcome (S : SDK) (getenv : String → String) (r : Run S) :
    Outcome S getenv r (createSettlement S getenv r).1 (createSettlement S getenv r).2.calls
      (createSettlement S getenv r).2.stdout (createSettlement S getenv r).2.world := by
  unfold createSettlement
  by_cases h1 : getenv "OTIM_API_URL" = ""
  · simp only [h1, if_true]; exact .noURL h1
  by_cases h2 : getenv "OTIM_API_KEY" = ""
  · simp only [h1, h2, if_true, if_false]; exact .noKey h1 h2
  by_cases h3 : getenv "OTIM_PRIVATE_KEY" = ""
  · simp only [h1, h2, h3, if_true, if_false]; exact .noPrivateKey h1 h2 h3
  by_cases h4 : getenv "RECIPIENT_ADDRESS" = ""
  · simp only [h1, h2, h3, h4, if_true, if_false]; exact .noRecipient h1 h2 h3 h4
  have hc : Complete getenv := ⟨h1, h2, h3, h4⟩
  simp only [h1, h2, h3, h4, if_false, Run.perform, Run.log, Run.Println]
  generalize hs : S.NewEthSigner (getenv "OTIM_PRIVATE_KEY") r.world = out1
  obtain ⟨res1, w1⟩ := out1
  cases res1 with
  | error e => exact .signerFailed hc e w1 hs
  | ok sg =>
  dsimp only
  generalize hcl : S.NewClient sg (getenv "OTIM_API_URL") (getenv "OTIM_API_KEY") w1 = out2
  obtain ⟨res2, w2⟩ := out2
  cases res2 with
  | error e =>
    simp only [List.append_assoc, List.singleton_append]
    exact .clientFailed hc sg e w1 w2 hs hcl
  | ok cl =>
  dsimp only
  generalize hb : S.BuildSettlementOrchestration cl _ w2 = out3
  obtain ⟨res3, w3⟩ := out3
  cases res3 with
  | error e =>
    simp only [List.append_assoc, List.singleton_append, List.cons_append]
    exact .buildFailed hc sg cl e w1 w2 w3 hs hcl hb
  | ok resp =>
  dsimp only
  generalize hsg : S.NewOrchestrationFromBuild cl resp w3 = out4
  obtain ⟨res4, w4⟩ := out4
  cases res4 with
  | error e =>
    simp only [List.append_assoc, List.singleton_append, List.cons_append]
    exact .signFailed hc sg cl resp e w1 w2 w3 w4 hs hcl hb hsg
  | ok req =>
  dsimp only
  generalize hsub : S.NewOrchestration cl req w4 = out5
  obtain ⟨res5, w5⟩ := out5
  cases res5 with
  | some e =>
    simp only [List.append_assoc, List.singleton_append, List.cons_append]
    exact .submitFailed hc sg cl resp req e w1 w2 w3 w4 w5 hs hcl hb hsg hsub
  | none =>
    simp only [List.append_assoc, List.singleton_append, List.cons_append]
    exact .done hc sg cl resp req w1 w2 w3 w4 w5 hs hcl hb hsg hsub

/-- The calls a run records are genuine: they are the SDK operations performed, in order,
on the world the run started in, with the results the SDK returned. -/
theorem createSettlement_genuine (S : SDK) (getenv : String → String) (w : S.World) :
    Genuine S w (createSettlement S getenv (Run.start w)).2.calls
      (createSettlement S getenv (Run.start w)).2.world := by
  have h := createSettlement_outcome S getenv (Run.start w)
  revert h
  generalize (createSettlement S getenv (Run.start w)).1 = ret
  generalize (createSettlement S getenv (Run.start w)).2.calls = calls
  generalize (createSettlement S getenv (Run.start w)).2.stdout = out
  generalize (createSettlement S getenv (Run.start w)).2.world = wf
  intro h
  cases h <;> simp_all [Genuine, Run.start]

/-! ## Missing configuration -/

/-- With exactly one required variable empty, `createSettlement` returns that
variable's message and leaves the run untouched. -/
theorem createSettlement_missing (S : SDK) (getenv : String → String) (r : Run S)
    (v : String) (hv : v ∈ requiredVars) (hempty : getenv v = "")
    (hothers : ∀ u ∈ requiredVars, u ≠ v → getenv u ≠ "") :
    createSettlement S getenv r = (some (Errorf (missingMessage v)), r) := by
  have hU := hothers "OTIM_API_URL" (by simp [requiredVars])
  have hK := hothers "OTIM_API_KEY" (by simp [requiredVars])
  have hP := hothers "OTIM_PRIVATE_KEY" (by simp [requiredVars])
  have hR := hothers "RECIPIENT_ADDRESS" (by simp [requiredVars])
  simp only [requiredVars, List.mem_cons, List.mem_singleton, List.not_mem_nil, or_false] at hv
  rcases hv with rfl | rfl | rfl | rfl
  · simp [createSettlement, hempty, missingMessage]
  · simp [createSettlement, hempty, hU (by decide), missingMessage]
  · simp [createSettlement, hempty, hU (by decide), hK (by decide), missingMessage]
  · simp [createSettlement, hempty, hU (by decide), hK (by decide), hP (by decide),
      missingMessage]

/-- Of the four variable names, the message for `v` mentions `v` only. -/
theorem missingMessage_mentions :
    ∀ v ∈ requiredVars, ∀ u ∈ requiredVars, mentions (missingMessage v) u ↔ u = v := by
  decide

/-- The four messages are pairwise distinct. -/
theorem missingMessage_injective :
    ∀ v ∈ requiredVars, ∀ u ∈ requiredVars, missingMessage u = missingMessage v → u = v := by
  decide

/-- C1. When exactly one required variable is empty, `createSettlement` returns an
error whose message is that variable's name followed by " environment variable is
required"; of the four variable names the message mentions that one only; no
collaborator is called; and a configuration missing a different variable gets a
different message. -/
theorem missing_variable_error (S : SDK) (getenv : String → String) (w : S.World)
    (v : String) (hv : v ∈ requiredVars) (hempty : getenv v = "")
    (hothers : ∀ u ∈ requiredVars, u ≠ v → getenv u ≠ "") :
    ∃ e, (createSettlement S getenv (Run.start w)).1 = some e ∧
      e.Error = missingMessage v ∧
      (∀ u ∈ requiredVars, mentions e.Error u ↔ u = v) ∧
      (createSettlement S getenv (Run.start w)).2.calls = [] ∧
      ∀ (S' : SDK) (getenv₂ : String → String) (w' : S'.World) (v' : String),
        v' ∈ requiredVars → v' ≠ v → getenv₂ v' = "" →
        (∀ u ∈ requiredVars, u ≠ v' → getenv₂ u ≠ "") →
        ∃ e', (createSettlement S' getenv₂ (Run.start w')).1 = some e' ∧ e'.Error ≠ e.Error := by
  refine ⟨Errorf (missingMessage v), ?_, rfl, ?_, ?_, ?_⟩
  · rw [createSettlement_missing S getenv _ v hv hempty hothers]
  · exact missingMessage_mentions v hv
  · rw [createSettlement_missing S getenv _ v hv hempty hothers]; rfl
  · intro S' getenv₂ w' v' hv' hne hempty' hothers'
    refine ⟨Errorf (missingMessage v'), ?_, ?_⟩
    · rw [createSettlement_missing S' getenv₂ _ v' hv' hempty' hothers']
    · exact fun h => hne (missingMessage_injective v hv v' hv' h)

/-- C1 at a concrete input: `OTIM_API_KEY` unset, the fake SDK. -/
theorem missing_variable_error_witness :
    "OTIM_API_KEY" ∈ requiredVars ∧
    envWithout "OTIM_API_KEY" "OTIM_API_KEY" = "" ∧
    (∀ u ∈ requiredVars, u ≠ "OTIM_API_KEY" → envWithout "OTIM_API_KEY" u ≠ "") ∧
    ∃ e, (createSettlement (fakeSDK none "req-1") (envWithout "OTIM_API_KEY")
        (Run.start (0 : Nat))).1 = some e ∧
      e.Error = missingMessage "OTIM_API_KEY" ∧
      (∀ u ∈ requiredVars, mentions e.Error u ↔ u = "OTIM_API_KEY") ∧
      (createSettlement (fakeSDK none "req-1") (envWithout "OTIM_API_KEY")
        (Run.start (0 : Nat))).2.calls = [] ∧
      ∀ (S' : SDK) (getenv₂ : String → String) (w' : S'.World) (v' : String),
        v' ∈ requiredVars → v' ≠ "OTIM_API_KEY" → getenv₂ v' = "" →
        (∀ u ∈ requiredVars, u ≠ v' → getenv₂ u ≠ "") →
        ∃ e', (createSettlement S' getenv₂ (Run.start w')).1 = some e' ∧ e'.Error ≠ e.Error :=
  ⟨by decide, by decide, by decide,
    missing_variable_error (fakeSDK none "req-1") (envWithout "OTIM_API_KEY") (0 : Nat)
      "OTIM_API_KEY" (by decide) (by decide) (by decide)⟩

/-! ## The build request -/

/-- The amount of lines 75-76 is one million. -/
theorem settlementAmount_eq : settlementAmount = 1000000 := by decide

/-- C2. With a complete configuration and successful signer and client construction,
exactly one build request is made: its accepted tokens are the two entries chain 1 with
the pyUSD address 0x6c3ea9036406852006290770BEdFcAbA0e23A0e8 alone and chain 8453 with the
USDC address 0x833589fCD6eDb6E08f4c7C32D4f71b54bdA02913 alone, it settles on chain 8453 in
that USDC token, and its amount is 1,000,000, which is 1 * 10^6, whatever the environment
holds. -/
theorem build_request_fixed (S : SDK) (getenv : String → String) (w : S.World)
    (_hc : Complete getenv)
    (hsigner : succeeded (createSettlement S getenv (Run.start w)).2.calls .signer)
    (hclient : succeeded (createSettlement S getenv (Run.start w)).2.calls .client) :
    ∃ req, buildRequests (createSettlement S getenv (Run.start w)).2.calls = [req] ∧
      req.AcceptedTokens =
        [(1, [S.HexToAddress "0x6c3ea9036406852006290770BEdFcAbA0e23A0e8"]),
          (8453, [S.HexToAddress "0x833589fCD6eDb6E08f4c7C32D4f71b54bdA02913"])] ∧
      req.AcceptedTokens.length = 2 ∧
      (req.AcceptedTokens.map Prod.fst).Nodup ∧
      req.SettlementChain = 8453 ∧
      req.SettlementToken = S.HexToAddress "0x833589fCD6eDb6E08f4c7C32D4f71b54bdA02913" ∧
      req.SettlementAmount = 1000000 ∧
      req.SettlementAmount = 1 * 10 ^ 6 := by
  have h := createSettlement_outcome S getenv (Run.start w)
  revert h hsigner hclient
  generalize (createSettlement S getenv (Run.start w)).1 = ret
  generalize (createSettlement S getenv (Run.start w)).2.calls = calls
  generalize (createSettlement S getenv (Run.start w)).2.stdout = out
  generalize (createSettlement S getenv (Run.start w)).2.world = wf
  intro hsigner hclient h
  cases h <;>
    simp_all [succeeded, Run.start, Call.stage, Call.err, buildRequests, buildRequestFor,
      ethereumMainnetChainID, baseChainID, pyUSDAddress, usdcAddress] <;>
    exact settlementAmount_eq

/-- C2 at a concrete input: the fake SDK whose sign stage fails. -/
theorem build_request_fixed_witness :
    Complete fullEnv ∧
    succeeded (createSettlement (fakeSDK (some .sign) "req-1") fullEnv
      (Run.start (0 : Nat))).2.calls .signer ∧
    succeeded (createSettlement (fakeSDK (some .sign) "req-1") fullEnv
      (Run.start (0 : Nat))).2.calls .client ∧
    ∃ req, buildRequests (createSettlement (fakeSDK (some .sign) "req-1") fullEnv
        (Run.start (0 : Nat))).2.calls = [req] ∧
      req.AcceptedTokens =
        [(1, ["0x6c3ea9036406852006290770BEdFcAbA0e23A0e8"]),
          (8453, ["0x833589fCD6eDb6E08f4c7C32D4f71b54bdA02913"])] ∧
      req.AcceptedTokens.length = 2 ∧
      (req.AcceptedTokens.map Prod.fst).Nodup ∧
      req.SettlementChain = 8453 ∧
      req.SettlementToken = "0x833589fCD6eDb6E08f4c7C32D4f71b54bdA02913" ∧
      req.SettlementAmount = 1000000 ∧
      req.SettlementAmount = 1 * 10 ^ 6 :=
  ⟨by decide, by decide, by decide,
    build_request_fixed (fakeSDK (some .sign) "req-1") fullEnv (0 : Nat)
      (by decide) (by decide) (by decide)⟩

/-! ## Sequencing -/

/-- C4. When the build call returns an error, `createSettlement` returns an error and
neither the sign call nor the submit call is made. -/
theorem build_failure_stops (S : SDK) (getenv : String → String) (w : S.World)
    (e : GoError)
    (hfail : failedWith (createSettlement S getenv (Run.start w)).2.calls .build e) :
    (∃ err, (createSettlement S getenv (Run.start w)).1 = some err) ∧
      ¬ invoked (createSettlement S getenv (Run.start w)).2.calls .sign ∧
      ¬ invoked (createSettlement S getenv (Run.start w)).2.calls .submit := by
  have h := createSettlement_outcome S getenv (Run.start w)
  revert h hfail
  generalize (createSettlement S getenv (Run.start w)).1 = ret
  generalize (createSettlement S getenv (Run.start w)).2.calls = calls
  generalize (createSettlement S getenv (Run.start w)).2.stdout = out
  generalize (createSettlement S getenv (Run.start w)).2.world = wf
  intro hfail h
  cases h <;> simp_all [failedWith, invoked, Run.start, Call.stage, Call.err]

/-- C4 at a concrete input: the fake SDK whose build stage fails. -/
theorem build_failure_stops_witness :
    failedWith (createSettlement (fakeSDK (some .build) "req-1") fullEnv
      (Run.start (0 : Nat))).2.calls .build (.errorString "boom") ∧
    ((∃ err, (createSettlement (fakeSDK (some .build) "req-1") fullEnv
        (Run.start (0 : Nat))).1 = some err) ∧
      ¬ invoked (createSettlement (fakeSDK (some .build) "req-1") fullEnv
        (Run.start (0 : Nat))).2.calls .sign ∧
      ¬ invoked (createSettlement (fakeSDK (some .build) "req-1") fullEnv
        (Run.start (0 : Nat))).2.calls .submit) :=
  ⟨by decide,
    build_failure_stops (fakeSDK (some .build) "req-1") fullEnv (0 : Nat)
      (.errorString "boom") (by decide)⟩

/-- C5. When the sign call returns an error, `createSettlement` returns an error and
the submit call is never made. -/
theorem sign_failure_stops (S : SDK) (getenv : String → String) (w : S.World)
    (e : GoError)
    (hfail : failedWith (createSettlement S getenv (Run.start w)).2.calls .sign e) :
    (∃ err, (createSettlement S getenv (Run.start w)).1 = some err) ∧
      ¬ invoked (createSettlement S getenv (Run.start w)).2.calls .submit := by
  have h := createSettlement_outcome S getenv (Run.start w)
  revert h hfail
  generalize (createSettlement S getenv (Run.start w)).1 = ret
  generalize (createSettlement S getenv (Run.start w)).2.calls = calls
  generalize (createSettlement S getenv (Run.start w)).2.stdout = out
  generalize (createSettlement S getenv (Run.start w)).2.world = wf
  intro hfail h
  cases h <;> simp_all [failedWith, invoked, Run.start, Call.stage, Call.err]

/-- C5 at a concrete input: the fake SDK whose sign stage fails. -/
theorem sign_failure_stops_witness :
    failedWith (createSettlement (fakeSDK (some .sign) "req-1") fullEnv
      (Run.start (0 : Nat))).2.calls .sign (.errorString "boom") ∧
    ((∃ err, (createSettlement (fakeSDK (some .sign) "req-1") fullEnv
        (Run.start (0 : Nat))).1 = some err) ∧
      ¬ invoked (createSettlement (fakeSDK (some .sign) "req-1") fullEnv
        (Run.start (0 : Nat))).2.calls .submit) :=
  ⟨by decide,
    sign_failure_stops (fakeSDK (some .sign) "req-1") fullEnv (0 : Nat)
      (.errorString "boom") (by decide)⟩

/-- C6. In every run, whatever the configuration and the collaborators do: if any of
the five stages is invoked, all four configuration values are non-empty. -/
theorem config_complete_before_calls (S : SDK) (getenv : String → String) (w : S.World)
    (s : Stage) (hinv : invoked (createSettlement S getenv (Run.start w)).2.calls s) :
    getenv "OTIM_API_URL" ≠ "" ∧ getenv "OTIM_API_KEY" ≠ "" ∧
      getenv "OTIM_PRIVATE_KEY" ≠ "" ∧ getenv "RECIPIENT_ADDRESS" ≠ "" := by
  have h := createSettlement_outcome S getenv (Run.start w)
  revert h hinv
  generalize (createSettlement S getenv (Run.start w)).1 = ret
  generalize (createSettlement S getenv (Run.start w)).2.calls = calls
  generalize (createSettlement S getenv (Run.start w)).2.stdout = out
  generalize (createSettlement S getenv (Run.start w)).2.world = wf
  intro hinv h
  cases h <;> first
    | assumption
    | simp [invoked, Run.start] at hinv

/-- C6 at a concrete input: the signer stage of the fake SDK, which fails. -/
theorem config_complete_before_calls_witness :
    invoked (createSettlement (fakeSDK (some .signer) "req-1") fullEnv
      (Run.start (0 : Nat))).2.calls .signer ∧
    (fullEnv "OTIM_API_URL" ≠ "" ∧ fullEnv "OTIM_API_KEY" ≠ "" ∧
      fullEnv "OTIM_PRIVATE_KEY" ≠ "" ∧ fullEnv "RECIPIENT_ADDRESS" ≠ "") :=
  ⟨by decide,
    config_complete_before_calls (fakeSDK (some .signer) "req-1") fullEnv (0 : Nat)
      .signer (by decide)⟩

/-! ## Wrapped stage errors -/

/-- An error is on its own chain. -/
theorem GoError.mem_chain_self (e : GoError) : e ∈ e.chain := by
  cases e <;> simp [GoError.chain]

/-- Two wrapped messages with the same text come from the same stage: no label is the
beginning of another label followed by anything. -/
theorem Stage.label_append_inj (s s' : Stage) (x y : String)
    (h : s.label ++ x = s'.label ++ y) : s = s' := by
  have hd := congrArg String.data h
  cases s <;> cases s' <;> first | rfl | (simp [Stage.label] at hd)

/-- No wrapped message is a missing-configuration message. -/
theorem Stage.label_append_ne_missing (s : Stage) (x : String) :
    ∀ v ∈ requiredVars, s.label ++ x ≠ missingMessage v := by
  intro v hv h
  have hd := congrArg String.data h
  simp only [requiredVars, List.mem_cons, List.mem_singleton, List.not_mem_nil, or_false] at hv
  rcases hv with rfl | rfl | rfl | rfl <;> cases s <;>
    simp [Stage.label, missingMessage] at hd

/-- The shape of a run in which stage `s` failed with `e`: the returned error is `e`
wrapped under the label of `s`, and the failing call is the last one, after successful
calls only. -/
theorem failedWith_shape (S : SDK) (getenv : String → String) (r : Run S)
    (ret : Option GoError) (calls : List (Call S)) (out : String) (wf : S.World)
    (h : Outcome S getenv r ret calls out wf) (hr : r.calls = [])
    (s : Stage) (e : GoError) (hfail : failedWith calls s e) :
    ret = some (ErrorfW s.label e) ∧
      ∃ before c, calls = before ++ [c] ∧ c.stage = s ∧ c.err = some e ∧
        ∀ b ∈ before, b.err = none := by
  cases h with
  | noURL h => simp [failedWith, hr] at hfail
  | noKey _ h => simp [failedWith, hr] at hfail
  | noPrivateKey _ _ h => simp [failedWith, hr] at hfail
  | noRecipient _ _ _ h => simp [failedWith, hr] at hfail
  | signerFailed hc e' =>
    simp [failedWith, hr, Call.stage, Call.err] at hfail
    obtain ⟨rfl, rfl⟩ := hfail
    rw [hr]
    exact ⟨rfl, [], _, rfl, rfl, rfl, by simp⟩
  | clientFailed hc sg e' =>
    simp [failedWith, hr, Call.stage, Call.err] at hfail
    obtain ⟨rfl, rfl⟩ := hfail
    rw [hr]
    exact ⟨rfl, [_], _, rfl, rfl, rfl, by simp [Call.err]⟩
  | buildFailed hc sg cl e' =>
    simp [failedWith, hr, Call.stage, Call.err] at hfail
    obtain ⟨rfl, rfl⟩ := hfail
    rw [hr]
    exact ⟨rfl, [_, _], _, rfl, rfl, rfl, by simp [Call.err]⟩
  | signFailed hc sg cl resp e' =>
    simp [failedWith, hr, Call.stage, Call.err] at hfail
    obtain ⟨rfl, rfl⟩ := hfail
    rw [hr]
    exact ⟨rfl, [_, _, _], _, rfl, rfl, rfl, by simp [Call.err]⟩
  | submitFailed hc sg cl resp req e' =>
    simp [failedWith, hr, Call.stage, Call.err] at hfail
    obtain ⟨rfl, rfl⟩ := hfail
    rw [hr]
    exact ⟨rfl, [_, _, _, _], _, rfl, rfl, rfl, by simp [Call.err]⟩
  | done hc sg cl resp req =>
    simp [failedWith, hr, Call.stage, Call.err] at hfail

/-- C7. When stage `s` fails with the error `e` (the first failure, since every call
before it succeeded), `createSettlement` returns at once, the failing call being the last
call made, with an error that unwraps to `e`, has `e` on its chain, and whose message is
the label of `s` followed by the unchanged message of `e`.  The five labels are pairwise
distinct, also when followed by any text, and no label, followed by any text, is one of
the four missing-configuration messages. -/
theorem stage_failure_wrapped (S : SDK) (getenv : String → String) (w : S.World)
    (s : Stage) (e : GoError)
    (hfail : failedWith (createSettlement S getenv (Run.start w)).2.calls s e) :
    (∃ err, (createSettlement S getenv (Run.start w)).1 = some err ∧
      err.Unwrap = some e ∧ e ∈ err.chain ∧ err.Error = s.label ++ e.Error) ∧
    (∃ before c, (createSettlement S getenv (Run.start w)).2.calls = before ++ [c] ∧
      c.stage = s ∧ c.err = some e ∧ ∀ b ∈ before, b.err = none) ∧
    (∀ s' : Stage, s'.label = s.label → s' = s) ∧
    (∀ (s' : Stage) (x y : String), s'.label ++ x = s.label ++ y → s' = s) ∧
    (∀ v ∈ requiredVars, s.label ≠ missingMessage v) ∧
    (∀ v ∈ requiredVars, ∀ x : String, s.label ++ x ≠ missingMessage v) := by
  obtain ⟨hret, hshape⟩ := failedWith_shape S getenv (Run.start w) _ _ _ _
    (createSettlement_outcome S getenv (Run.start w)) rfl s e hfail
  refine ⟨⟨ErrorfW s.label e, hret, rfl, ?_, rfl⟩, hshape, ?_, ?_, ?_, ?_⟩
  · simp [ErrorfW, GoError.chain, GoError.mem_chain_self]
  · intro s' h
    exact Stage.label_append_inj s' s "" "" (by rw [h])
  · intro s' x y h
    exact Stage.label_append_inj s' s x y h
  · intro v hv h
    exact Stage.label_append_ne_missing s "" v hv (by rw [← h]; simp)
  · intro v hv x
    exact Stage.label_append_ne_missing s x v hv

/-- C7 at a concrete input: the fake SDK whose client construction fails. -/
theorem stage_failure_wrapped_witness :
    failedWith (createSettlement (fakeSDK (some .client) "req-1") fullEnv
      (Run.start (0 : Nat))).2.calls .client (.errorString "boom") ∧
    (createSettlement (fakeSDK (some .client) "req-1") fullEnv (Run.start (0 : Nat))).1 =
      some (.wrapError "failed to create client: boom" (.errorString "boom")) ∧
    ((∃ err, (createSettlement (fakeSDK (some .client) "req-1") fullEnv
        (Run.start (0 : Nat))).1 = some err ∧
      err.Unwrap = some (.errorString "boom") ∧ GoError.errorString "boom" ∈ err.chain ∧
      err.Error = Stage.client.label ++ (GoError.errorString "boom").Error) ∧
    (∃ before c, (createSettlement (fakeSDK (some .client) "req-1") fullEnv
        (Run.start (0 : Nat))).2.calls = before ++ [c] ∧
      c.stage = .client ∧ c.err = some (.errorString "boom") ∧ ∀ b ∈ before, b.err = none) ∧
    (∀ s' : Stage, s'.label = Stage.client.label → s' = .client) ∧
    (∀ (s' : Stage) (x y : String), s'.label ++ x = Stage.client.label ++ y → s' = .client) ∧
    (∀ v ∈ requiredVars, Stage.client.label ≠ missingMessage v) ∧
    (∀ v ∈ requiredVars, ∀ x : String, Stage.client.label ++ x ≠ missingMessage v)) :=
  ⟨by decide, by decide,
    stage_failure_wrapped (fakeSDK (some .client) "req-1") fullEnv (0 : Nat) .client
      (.errorString "boom") (by decide)⟩

/-! ## Successful runs -/

/-- The shape of a run whose submit call succeeded: all five calls, each successful, in
order, each fed by the one before, and the request identifier on standard output. -/
theorem succeeded_shape (S : SDK) (getenv : String → String) (r : Run S)
    (ret : Option GoError) (calls : List (Call S)) (out : String) (wf : S.World)
    (h : Outcome S getenv r ret calls out wf) (hr : r.calls = [])
    (hsub : succeeded calls .submit) :
    ret = none ∧ Complete getenv ∧
      ∃ sg cl resp req,
        calls =
          [.NewEthSigner (getenv "OTIM_PRIVATE_KEY") (.ok sg),
            .NewClient sg (getenv "OTIM_API_URL") (getenv "OTIM_API_KEY") (.ok cl),
            .BuildSettlementOrchestration cl (buildRequestFor S (getenv "RECIPIENT_ADDRESS"))
              (.ok resp),
            .NewOrchestrationFromBuild cl resp (.ok req),
            .NewOrchestration cl req none] ∧
        out = r.stdout ++ ("\n" ++ S.RequestID resp) ++ "\n" := by
  cases h with
  | done hc sg cl resp req => exact ⟨rfl, hc, sg, cl, resp, req, by rw [hr]; rfl, rfl⟩
  | _ => simp [succeeded, hr, Call.stage, Call.err] at hsub

/-- A run that returns no error is a run whose submit call succeeded. -/
theorem succeeded_submit_of_none (S : SDK) (getenv : String → String) (r : Run S)
    (ret : Option GoError) (calls : List (Call S)) (out : String) (wf : S.World)
    (h : Outcome S getenv r ret calls out wf) (hret : ret = none) :
    succeeded calls .submit := by
  cases h with
  | done hc sg cl resp req => exact ⟨.NewOrchestration cl req none, by simp, rfl, rfl⟩
  | _ => simp at hret

/-- C8. With a complete configuration and every stage successful, the calls made are
exactly five, once each and in this order: signer construction with the private key,
client construction with that signer, the API URL and the API key, build with the build
request of lines 80-93, sign with the response build returned, submit with the request
sign returned; the submit call is the only submit call. -/
theorem calls_in_order (S : SDK) (getenv : String → String) (w : S.World)
    (_hc : Complete getenv)
    (hall : ∀ s : Stage, succeeded (createSettlement S getenv (Run.start w)).2.calls s) :
    ∃ sg cl resp req,
      (createSettlement S getenv (Run.start w)).2.calls =
        [.NewEthSigner (getenv "OTIM_PRIVATE_KEY") (.ok sg),
          .NewClient sg (getenv "OTIM_API_URL") (getenv "OTIM_API_KEY") (.ok cl),
          .BuildSettlementOrchestration cl
            { AcceptedTokens :=
                [(1, [S.HexToAddress pyUSDAddress]), (8453, [S.HexToAddress usdcAddress])]
              SettlementChain := 8453
              SettlementToken := S.HexToAddress usdcAddress
              SettlementAmount := 1000000
              RecipientAddress := S.HexToAddress (getenv "RECIPIENT_ADDRESS") }
            (.ok resp),
          .NewOrchestrationFromBuild cl resp (.ok req),
          .NewOrchestration cl req none] ∧
      (createSettlement S getenv (Run.start w)).2.calls.filter
          (fun c => decide (c.stage = .submit)) = [.NewOrchestration cl req none] := by
  obtain ⟨_, _, sg, cl, resp, req, hcalls, _⟩ := succeeded_shape S getenv (Run.start w) _ _ _ _
    (createSettlement_outcome S getenv (Run.start w)) rfl (hall .submit)
  refine ⟨sg, cl, resp, req, ?_, ?_⟩
  · rw [hcalls]
    simp [buildRequestFor, ethereumMainnetChainID, baseChainID, settlementAmount_eq]
  · rw [hcalls]
    simp [Call.stage]

/-- C8 at a concrete input: the fake SDK with every stage successful. -/
theorem calls_in_order_witness :
    Complete fullEnv ∧
    (∀ s : Stage, succeeded (createSettlement (fakeSDK none "req-1") fullEnv
      (Run.start (0 : Nat))).2.calls s) ∧
    ∃ sg cl resp req,
      (createSettlement (fakeSDK none "req-1") fullEnv (Run.start (0 : Nat))).2.calls =
        [.NewEthSigner "0xabc" (.ok sg),
          .NewClient sg "https://api.example" "key" (.ok cl),
          .BuildSettlementOrchestration cl
            { AcceptedTokens := [(1, [pyUSDAddress]), (8453, [usdcAddress])]
              SettlementChain := 8453
              SettlementToken := usdcAddress
              SettlementAmount := 1000000
              RecipientAddress := "not-an-address" }
            (.ok resp),
          .NewOrchestrationFromBuild cl resp (.ok req),
          .NewOrchestration cl req none] ∧
      (createSettlement (fakeSDK none "req-1") fullEnv (Run.start (0 : Nat))).2.calls.filter
          (fun c => decide (c.stage = .submit)) = [.NewOrchestration cl req none] :=
  ⟨by decide, by decide,
    calls_in_order (fakeSDK none "req-1") fullEnv (0 : Nat) (by decide) (by decide)⟩

/-- The run depends on `RECIPIENT_ADDRESS` only through its being non-empty and through
`common.HexToAddress` of it. -/
theorem createSettlement_recipient (S : SDK) (getenv getenv₂ : String → String) (r : Run S)
    (hU : getenv₂ "OTIM_API_URL" = getenv "OTIM_API_URL")
    (hK : getenv₂ "OTIM_API_KEY" = getenv "OTIM_API_KEY")
    (hP : getenv₂ "OTIM_PRIVATE_KEY" = getenv "OTIM_PRIVATE_KEY")
    (hne : getenv "RECIPIENT_ADDRESS" ≠ "") (hne' : getenv₂ "RECIPIENT_ADDRESS" ≠ "")
    (hhex : S.HexToAddress (getenv₂ "RECIPIENT_ADDRESS") =
      S.HexToAddress (getenv "RECIPIENT_ADDRESS")) :
    createSettlement S getenv₂ r = createSettlement S getenv r := by
  unfold createSettlement
  simp only [hU, hK, hP, hne, hne', hhex, if_false]

/-- C10. `createSettlement` returns no error exactly when all four values are non-empty
and all five stages succeed.  The script does no validation of its own on a non-empty
`RECIPIENT_ADDRESS`: with a complete configuration the first collaborator is always
reached, every build request carries `common.HexToAddress` of the value as recipient, and
replacing the value by any other non-empty string with the same `HexToAddress` image
leaves the whole run unchanged. -/
theorem success_iff (S : SDK) (getenv : String → String) (w : S.World) :
    ((createSettlement S getenv (Run.start w)).1 = none ↔
      Complete getenv ∧
        ∀ s : Stage, succeeded (createSettlement S getenv (Run.start w)).2.calls s) ∧
    (Complete getenv → invoked (createSettlement S getenv (Run.start w)).2.calls .signer) ∧
    (∀ req ∈ buildRequests (createSettlement S getenv (Run.start w)).2.calls,
      req.RecipientAddress = S.HexToAddress (getenv "RECIPIENT_ADDRESS")) ∧
    (∀ recipient : String, recipient ≠ "" → getenv "RECIPIENT_ADDRESS" ≠ "" →
      S.HexToAddress recipient = S.HexToAddress (getenv "RECIPIENT_ADDRESS") →
      createSettlement S (Function.update getenv "RECIPIENT_ADDRESS" recipient) (Run.start w) =
        createSettlement S getenv (Run.start w)) := by
  have h := createSettlement_outcome S getenv (Run.start w)
  refine ⟨⟨fun hret => ?_, fun hall => ?_⟩, fun hc => ?_, ?_, ?_⟩
  · have hsub := succeeded_submit_of_none S getenv _ _ _ _ _ h hret
    obtain ⟨_, hc, sg, cl, resp, req, hcalls, _⟩ :=
      succeeded_shape S getenv (Run.start w) _ _ _ _ h rfl hsub
    refine ⟨hc, fun s => ?_⟩
    rw [hcalls]
    cases s <;> simp [succeeded, Call.stage, Call.err]
  · exact (succeeded_shape S getenv (Run.start w) _ _ _ _ h rfl (hall.2 .submit)).1
  · revert h
    generalize (createSettlement S getenv (Run.start w)).1 = ret
    generalize (createSettlement S getenv (Run.start w)).2.calls = calls
    generalize (createSettlement S getenv (Run.start w)).2.stdout = out
    generalize (createSettlement S getenv (Run.start w)).2.world = wf
    intro h
    cases h <;> first
      | (simp [invoked, Run.start, Call.stage]; done)
      | (exfalso; unfold Complete at hc; tauto)
  · revert h
    generalize (createSettlement S getenv (Run.start w)).1 = ret
    generalize (createSettlement S getenv (Run.start w)).2.calls = calls
    generalize (createSettlement S getenv (Run.start w)).2.stdout = out
    generalize (createSettlement S getenv (Run.start w)).2.world = wf
    intro h
    cases h <;> simp [buildRequests, Run.start, buildRequestFor]
  · intro recipient hne hne' hhex
    apply createSettlement_recipient
    · rw [Function.update_noteq (by decide)]
    · rw [Function.update_noteq (by decide)]
    · rw [Function.update_noteq (by decide)]
    · exact hne'
    · rw [Function.update_same]; exact hne
    · rw [Function.update_same]; exact hhex

/-- C10 at a concrete input: a recipient that is no address, the fake SDK with every
stage successful. -/
theorem success_iff_witness :
    (createSettlement (fakeSDK none "req-1") fullEnv (Run.start (0 : Nat))).1 = none ∧
    fullEnv "RECIPIENT_ADDRESS" = "not-an-address" ∧
    buildRequests (createSettlement (fakeSDK none "req-1") fullEnv
      (Run.start (0 : Nat))).2.calls = [buildRequestFor (fakeSDK none "req-1") "not-an-address"] ∧
    (createSettlement (fakeSDK (some .submit) "req-1") fullEnv (Run.start (0 : Nat))).1 ≠ none ∧
    (createSettlement (fakeSDK none "req-1") (envWithout "RECIPIENT_ADDRESS")
      (Run.start (0 : Nat))).1 ≠ none ∧
    (Complete fullEnv ∧
      ∀ s : Stage, succeeded (createSettlement (fakeSDK none "req-1") fullEnv
        (Run.start (0 : Nat))).2.calls s) :=
  ⟨by decide, by decide, by rfl, by decide, by decide,
    (success_iff (fakeSDK none "req-1") fullEnv (0 : Nat)).1.1 (by decide)⟩

/-! ## Standard output -/

/-- The characters of what `fmt.Println("\n" + rid)` writes on an empty output. -/
theorem println_data (rid : String) :
    ("" ++ ("\n" ++ rid) ++ "\n").data = '\n' :: (rid.data ++ ['\n']) := by
  simp [String.data_append]

/-- The last line of that output is `rid` when `rid` has no newline in it. -/
theorem finalLine_println (rid : String) (h : '\n' ∉ rid.data) :
    finalLine ("" ++ ("\n" ++ rid) ++ "\n") = rid := by
  unfold finalLine
  rw [println_data]
  have hp : ∀ a ∈ rid.data.reverse, (fun c => decide (c ≠ '\n')) a = true := by
    intro a ha
    have : a ≠ '\n' := fun hEq => h (hEq ▸ List.mem_reverse.mp ha)
    simpa using this
  have hrev : ('\n' :: (rid.data ++ ['\n'])).reverse = '\n' :: (rid.data.reverse ++ ['\n']) := by
    simp
  rw [hrev]
  show (⟨(List.takeWhile (fun c => decide (c ≠ '\n')) (rid.data.reverse ++ ['\n'])).reverse⟩ :
    String) = rid
  rw [List.takeWhile_append_of_pos hp]
  simp

/-- C3, as amended. With a complete configuration and every stage successful, standard
output is exactly a newline, the `RequestID` of the one response the build call
returned, unmodified, and a newline; when that identifier contains no newline character,
the final line of standard output is exactly the identifier. -/
theorem stdout_is_request_id (S : SDK) (getenv : String → String) (w : S.World)
    (_hc : Complete getenv)
    (hall : ∀ s : Stage, succeeded (createSettlement S getenv (Run.start w)).2.calls s) :
    ∃ resp, buildResponses (createSettlement S getenv (Run.start w)).2.calls = [resp] ∧
      (createSettlement S getenv (Run.start w)).2.stdout = "\n" ++ S.RequestID resp ++ "\n" ∧
      ('\n' ∉ (S.RequestID resp).data →
        finalLine (createSettlement S getenv (Run.start w)).2.stdout = S.RequestID resp) := by
  obtain ⟨_, _, sg, cl, resp, req, hcalls, hout⟩ := succeeded_shape S getenv (Run.start w) _ _ _ _
    (createSettlement_outcome S getenv (Run.start w)) rfl (hall .submit)
  refine ⟨resp, ?_, ?_, ?_⟩
  · rw [hcalls]; simp [buildResponses]
  · rw [hout]; apply String.ext; simp [Run.start, String.data_append]
  · intro hnl
    rw [hout]
    exact finalLine_println _ hnl

/-- C3, as amended, at a concrete input: the fake SDK handing out "req-1". -/
theorem stdout_is_request_id_witness :
    Complete fullEnv ∧
    (∀ s : Stage, succeeded (createSettlement (fakeSDK none "req-1") fullEnv
      (Run.start (0 : Nat))).2.calls s) ∧
    (createSettlement (fakeSDK none "req-1") fullEnv (Run.start (0 : Nat))).2.stdout =
      "\nreq-1\n" ∧
    finalLine (createSettlement (fakeSDK none "req-1") fullEnv (Run.start (0 : Nat))).2.stdout =
      "req-1" ∧
    ∃ resp, buildResponses (createSettlement (fakeSDK none "req-1") fullEnv
        (Run.start (0 : Nat))).2.calls = [resp] ∧
      (createSettlement (fakeSDK none "req-1") fullEnv (Run.start (0 : Nat))).2.stdout =
        "\n" ++ resp.1 ++ "\n" ∧
      ('\n' ∉ resp.1.data →
        finalLine (createSettlement (fakeSDK none "req-1") fullEnv
          (Run.start (0 : Nat))).2.stdout = resp.1) :=
  ⟨by decide, by decide, by decide, by decide,
    stdout_is_request_id (fakeSDK none "req-1") fullEnv (0 : Nat) (by decide) (by decide)⟩

/-- C3 as stated fails: every stage succeeds and the build call returns the `RequestID`
"a\nb", yet the final line of standard output is "b". -/
theorem final_line_not_request_id :
    Complete fullEnv ∧
    (∀ s : Stage, succeeded (createSettlement (fakeSDK none "a\nb") fullEnv
      (Run.start (0 : Nat))).2.calls s) ∧
    (createSettlement (fakeSDK none "a\nb") fullEnv (Run.start (0 : Nat))).1 = none ∧
    (buildResponses (createSettlement (fakeSDK none "a\nb") fullEnv
      (Run.start (0 : Nat))).2.calls).map (fakeSDK none "a\nb").RequestID = ["a\nb"] ∧
    (createSettlement (fakeSDK none "a\nb") fullEnv (Run.start (0 : Nat))).2.stdout =
      "\na\nb\n" ∧
    finalLine (createSettlement (fakeSDK none "a\nb") fullEnv (Run.start (0 : Nat))).2.stdout =
      "b" ∧
    finalLine (createSettlement (fakeSDK none "a\nb") fullEnv (Run.start (0 : Nat))).2.stdout ≠
      "a\nb" := by
  refine ⟨by decide, by decide, by decide, by decide, by decide, by decide, by decide⟩

/-! ## The program -/

/-- A run of `main` that exits with status 0 made one successful build call and wrote a
newline, the `RequestID` of its response and a newline on standard output. -/
theorem main_success (S : SDK) (environ : String → String) (w : S.World)
    (h0 : (main S environ w).1 = 0) :
    ∃ resp, buildResponses (main S environ w).2.calls = [resp] ∧
      (main S environ w).2.stdout = "\n" ++ S.RequestID resp ++ "\n" := by
  unfold main at h0 ⊢
  simp only at h0 ⊢
  generalize hr : (match (S.godotenvLoad environ (Run.start w).world).1 with
    | some _ => Run.log { Run.start w with world := (S.godotenvLoad environ (Run.start w).world).2.2 }
        "Warning: .env file not found, using environment variables"
    | none => { Run.start w with world := (S.godotenvLoad environ (Run.start w).world).2.2 }) = r0
    at h0 ⊢
  have hcalls : r0.calls = [] := by
    subst hr
    cases (S.godotenvLoad environ (Run.start w).world).1 <;> rfl
  have hout : r0.stdout = "" := by
    subst hr
    cases (S.godotenvLoad environ (Run.start w).world).1 <;> rfl
  have h := createSettlement_outcome S (S.godotenvLoad environ (Run.start w).world).2.1 r0
  revert h h0
  generalize createSettlement S (S.godotenvLoad environ (Run.start w).world).2.1 r0 = res
  obtain ⟨ret, run⟩ := res
  intro h0 h
  cases ret with
  | some err => simp at h0
  | none =>
    have hsub := succeeded_submit_of_none S _ _ _ _ _ _ h rfl
    obtain ⟨_, _, sg, cl, resp, req, hc, ho⟩ := succeeded_shape S _ r0 _ _ _ _ h hcalls hsub
    simp only at hc ho ⊢
    refine ⟨resp, ?_, ?_⟩
    · rw [hc]; simp [buildResponses]
    · rw [ho, hout]; apply String.ext; simp [String.data_append]

end Settle
